import Mathlib

/-!
Verification of the fare-prediction core of the train-fare-predictor
repository (src/app.py).  The only function with real logic is
`predict_fare(distance, duration, class_code, model)`: it encodes the travel
class, derives a fixed set of numeric features, assembles them into a
single-row vector of width 26 and delegates to the injected model.

Real-valued quantities are embedded as rationals (ℚ); the class encodings
are integers; the model capability is a total function from a feature row to
a fare.  Python's `math.ceil` is `Int.ceil`, and the dictionary lookups that
raise `KeyError` on an unknown class become an `Except` error value.
-/

namespace TrainFare

/-- The six recognized travel classes in hierarchy order (app.py line 26:
`class_hierarchy = ['1A', '2A', '3A', 'SL', 'CC', '2S']`). -/
def class_hierarchy : List String := ["1A", "2A", "3A", "SL", "CC", "2S"]

/-- The ordinal-rank dictionary of app.py line 27,
`{class_name: i for i, class_name in enumerate(class_hierarchy, 1)}`,
written out as the finite map it builds; `none` models `KeyError`. -/
def class_mapping (class_code : String) : Option ℤ :=
  if class_code = "1A" then some 1
  else if class_code = "2A" then some 2
  else if class_code = "3A" then some 3
  else if class_code = "SL" then some 4
  else if class_code = "CC" then some 5
  else if class_code = "2S" then some 6
  else none

/-- The luxury-score dictionary of app.py line 28,
`{'1A': 6, '2A': 5, '3A': 4, 'CC': 2, '2S': 1, 'SL': 3}`;
`none` models `KeyError`. -/
def luxury_mapping (class_code : String) : Option ℤ :=
  if class_code = "1A" then some 6
  else if class_code = "2A" then some 5
  else if class_code = "3A" then some 4
  else if class_code = "CC" then some 2
  else if class_code = "2S" then some 1
  else if class_code = "SL" then some 3
  else none

/-- Pre-clamp speed, app.py line 34:
`speed_kmh = distance / (math.ceil(duration / 60)) if duration > 0 else 0`. -/
def speed_kmh_unclamped (distance duration : ℚ) : ℚ :=
  if duration > 0 then distance / (⌈duration / 60⌉ : ℚ) else 0

/-- Final value of the `speed_kmh` variable after the clamp of app.py
lines 35-36: `if speed_kmh > 130: speed_kmh = 75`. -/
def speed_kmh (distance duration : ℚ) : ℚ :=
  if speed_kmh_unclamped distance duration > 130 then 75
  else speed_kmh_unclamped distance duration

/-- app.py line 38: `distance / duration if duration > 0 else 0`. -/
def km_per_minute (distance duration : ℚ) : ℚ :=
  if duration > 0 then distance / duration else 0

/-- app.py line 39: `speed_kmh * luxury_score`. -/
def speed_premium (distance duration : ℚ) (luxury_score : ℤ) : ℚ :=
  speed_kmh distance duration * luxury_score

/-- app.py line 40: `(distance / duration) * class_encoded if duration > 0 else 0`. -/
def efficiency_score (distance duration : ℚ) (class_encoded : ℤ) : ℚ :=
  if duration > 0 then (distance / duration) * class_encoded else 0

/-- app.py line 41: `1 if speed_kmh > 60 else 0`. -/
def is_express (distance duration : ℚ) : ℚ :=
  if speed_kmh distance duration > 60 then 1 else 0

/-- app.py line 42: `distance / duration if duration > 0 else 0`. -/
def journey_intensity (distance duration : ℚ) : ℚ :=
  if duration > 0 then distance / duration else 0

/-- app.py line 44: `1 if distance <= 200 else 0`. -/
def is_short_journey (distance : ℚ) : ℚ :=
  if distance ≤ 200 then 1 else 0

/-- app.py line 45: `1 if 200 < distance <= 500 else 0`. -/
def is_medium_journey (distance : ℚ) : ℚ :=
  if 200 < distance ∧ distance ≤ 500 then 1 else 0

/-- app.py line 46: `1 if distance > 500 else 0`. -/
def is_long_journey (distance : ℚ) : ℚ :=
  if distance > 500 then 1 else 0

/-- app.py line 48: `distance * class_encoded`. -/
def distance_class (distance : ℚ) (class_encoded : ℤ) : ℚ :=
  distance * class_encoded

/-- app.py line 49: `distance * luxury_score`. -/
def distance_luxury (distance : ℚ) (luxury_score : ℤ) : ℚ :=
  distance * luxury_score

/-- app.py line 50: `speed_kmh * class_encoded`. -/
def speed_class (distance duration : ℚ) (class_encoded : ℤ) : ℚ :=
  speed_kmh distance duration * class_encoded

/-- app.py line 51: `speed_kmh * luxury_score`. -/
def speed_luxury (distance duration : ℚ) (luxury_score : ℤ) : ℚ :=
  speed_kmh distance duration * luxury_score

/-- app.py line 52: `distance / duration if duration > 0 else 0`. -/
def distance_duration_ratio (distance duration : ℚ) : ℚ :=
  if duration > 0 then distance / duration else 0

/-- app.py line 53: `distance * duration * class_encoded`. -/
def distance_duration_class (distance duration : ℚ) (class_encoded : ℤ) : ℚ :=
  distance * duration * class_encoded

/-- app.py line 54: `is_express * luxury_score`. -/
def express_premium (distance duration : ℚ) (luxury_score : ℤ) : ℚ :=
  is_express distance duration * luxury_score

/-- app.py line 56: `distance ** 2`. -/
def distance_squared (distance : ℚ) : ℚ := distance ^ 2

/-- app.py line 57: `duration ** 2`. -/
def duration_squared (duration : ℚ) : ℚ := duration ^ 2

/-- app.py line 58: `speed_kmh ** 2`. -/
def speed_squared (distance duration : ℚ) : ℚ :=
  speed_kmh distance duration ^ 2

/-- The single feature row built by app.py lines 34-73, with the local
variables of the source as `let`s (the two `speed_kmh` bindings mirror the
assignment followed by the clamp re-assignment) and the binning placeholders
of line 61 fixed at 0. -/
def featureVector (distance duration : ℚ) (class_encoded luxury_score : ℤ) :
    List ℚ :=
  let speed_kmh : ℚ :=
    if duration > 0 then distance / (⌈duration / 60⌉ : ℚ) else 0
  let speed_kmh : ℚ := if speed_kmh > 130 then 75 else speed_kmh
  let km_per_minute : ℚ := if duration > 0 then distance / duration else 0
  let speed_premium : ℚ := speed_kmh * luxury_score
  let efficiency_score : ℚ :=
    if duration > 0 then (distance / duration) * class_encoded else 0
  let is_express : ℚ := if speed_kmh > 60 then 1 else 0
  let journey_intensity : ℚ := if duration > 0 then distance / duration else 0
  let is_short_journey : ℚ := if distance ≤ 200 then 1 else 0
  let is_medium_journey : ℚ :=
    if 200 < distance ∧ distance ≤ 500 then 1 else 0
  let is_long_journey : ℚ := if distance > 500 then 1 else 0
  let distance_class : ℚ := distance * class_encoded
  let distance_luxury : ℚ := distance * luxury_score
  let speed_class : ℚ := speed_kmh * class_encoded
  let speed_luxury : ℚ := speed_kmh * luxury_score
  let distance_duration_ratio : ℚ :=
    if duration > 0 then distance / duration else 0
  let distance_duration_class : ℚ := distance * duration * class_encoded
  let express_premium : ℚ := is_express * luxury_score
  let distance_squared : ℚ := distance ^ 2
  let duration_squared : ℚ := duration ^ 2
  let speed_squared : ℚ := speed_kmh ^ 2
  let distance_bin : ℚ := 0
  let duration_bin : ℚ := 0
  let speed_bin : ℚ := 0
  [ distance, duration, (class_encoded : ℚ), (luxury_score : ℚ),
    speed_kmh, km_per_minute, speed_premium, efficiency_score,
    is_express, journey_intensity,
    is_short_journey, is_medium_journey, is_long_journey,
    distance_class, distance_luxury, speed_class, speed_luxury,
    distance_duration_ratio, distance_duration_class, express_premium,
    distance_squared, duration_squared, speed_squared,
    distance_bin, duration_bin, speed_bin ]

/-- The failure of the fare core: the spec's `UnknownClassError`, raised in
the code as the `KeyError` of the class-dictionary lookups (app.py
lines 30-31). -/
inductive FareError where
  | unknownClass
deriving DecidableEq

/-- app.py lines 25-76, `predict_fare(distance, duration, class_code, model)`:
look up the class encodings (a missing key fails before any vector exists),
build the feature row, call the model on it and return
`(predicted_fare, speed_kmh)`.  The model capability is a total function from
one feature row to one fare, matching the spec's
`predict(rows) -> one fare per row` applied to the single row. -/
def predict_fare (distance duration : ℚ) (class_code : String)
    (model : List ℚ → ℚ) : Except FareError (ℚ × ℚ) :=
  match class_mapping class_code, luxury_mapping class_code with
  | some class_encoded, some luxury_score =>
      Except.ok (model (featureVector distance duration class_encoded luxury_score),
        speed_kmh distance duration)
  | _, _ => Except.error FareError.unknownClass

/-! ## Helper lemmas -/

/-- The feature row equals the list of the named per-feature functions, in
the order of app.py lines 63-73. -/
theorem featureVector_eq (d t : ℚ) (e l : ℤ) :
    featureVector d t e l =
      [ d, t, (e : ℚ), (l : ℚ),
        speed_kmh d t, km_per_minute d t, speed_premium d t l,
        efficiency_score d t e,
        is_express d t, journey_intensity d t,
        is_short_journey d, is_medium_journey d, is_long_journey d,
        distance_class d e, distance_luxury d l, speed_class d t e,
        speed_luxury d t l,
        distance_duration_ratio d t, distance_duration_class d t e,
        express_premium d t l,
        distance_squared d, duration_squared t, speed_squared d t,
        0, 0, 0 ] := rfl

/-- When the raw speed exceeds 130, the clamp of app.py lines 35-36 fires and
the final speed is the fallback constant 75. -/
theorem speed_kmh_eq_75 (d t : ℚ) (ht : 0 < t)
    (hs : 130 < d / (⌈t / 60⌉ : ℚ)) : speed_kmh d t = 75 := by
  have hu : speed_kmh_unclamped d t = d / (⌈t / 60⌉ : ℚ) := if_pos ht
  unfold speed_kmh
  rw [hu]
  exact if_pos hs

/-- With duration 0 the guard of app.py line 34 takes the `else 0` branch
and the clamp leaves 0 unchanged. -/
theorem speed_kmh_duration_zero (d : ℚ) : speed_kmh d 0 = 0 := by
  have hu : speed_kmh_unclamped d 0 = 0 := by simp [speed_kmh_unclamped]
  simp [speed_kmh, hu]

/-- A class code outside the hierarchy misses every key of the ordinal-rank
dictionary. -/
theorem class_mapping_eq_none (cc : String) (h : cc ∉ class_hierarchy) :
    class_mapping cc = none := by
  simp only [class_hierarchy, List.mem_cons, List.not_mem_nil, or_false,
    not_or] at h
  obtain ⟨h1, h2, h3, h4, h5, h6⟩ := h
  simp [class_mapping, h1, h2, h3, h4, h5, h6]

/-- A recognized class code hits both dictionaries and `predict_fare`
returns the model's fare on the feature row together with the clamped
speed. -/
theorem predict_fare_ok_of_mem (d t : ℚ) (cc : String)
    (model : List ℚ → ℚ) (hc : cc ∈ class_hierarchy) :
    ∃ e l : ℤ, class_mapping cc = some e ∧ luxury_mapping cc = some l ∧
      predict_fare d t cc model =
        Except.ok (model (featureVector d t e l), speed_kmh d t) := by
  simp only [class_hierarchy, List.mem_cons, List.not_mem_nil,
    or_false] at hc
  rcases hc with rfl | rfl | rfl | rfl | rfl | rfl
  · exact ⟨1, 6, rfl, rfl, rfl⟩
  · exact ⟨2, 5, rfl, rfl, rfl⟩
  · exact ⟨3, 4, rfl, rfl, rfl⟩
  · exact ⟨4, 3, rfl, rfl, rfl⟩
  · exact ⟨5, 2, rfl, rfl, rfl⟩
  · exact ⟨6, 1, rfl, rfl, rfl⟩

/-! ## Claim theorems -/

/-- C1: For every valid input (distance > 0, duration ≥ 0, recognized class
code), `predict_fare` assembles a single row of exactly 26 features in the
fixed order of app.py lines 63-73, the last three entries are the constant
0, and exactly this row is the one handed to `model.predict`. -/
theorem predict_fare_vector_layout (d t : ℚ) (cc : String)
    (model : List ℚ → ℚ) (e l : ℤ) (hd : 0 < d) (ht : 0 ≤ t)
    (he : class_mapping cc = some e) (hl : luxury_mapping cc = some l) :
    predict_fare d t cc model =
      Except.ok (model (featureVector d t e l), speed_kmh d t) ∧
    featureVector d t e l =
      [ d, t, (e : ℚ), (l : ℚ),
        speed_kmh d t, km_per_minute d t, speed_premium d t l,
        efficiency_score d t e,
        is_express d t, journey_intensity d t,
        is_short_journey d, is_medium_journey d, is_long_journey d,
        distance_class d e, distance_luxury d l, speed_class d t e,
        speed_luxury d t l,
        distance_duration_ratio d t, distance_duration_class d t e,
        express_premium d t l,
        distance_squared d, duration_squared t, speed_squared d t,
        0, 0, 0 ] ∧
    (featureVector d t e l).length = 26 := by
  refine ⟨?_, featureVector_eq d t e l, rfl⟩
  unfold predict_fare
  rw [he, hl]

/-- Witness for C1 at the spec's worked example distance 200, duration 180,
class 2A. -/
theorem predict_fare_vector_layout_witness :
    (featureVector 200 180 2 5).length = 26 :=
  (predict_fare_vector_layout 200 180 "2A" (fun _ => 0) 2 5 (by norm_num)
    (by norm_num) (by rfl) (by rfl)).2.2

/-- C2: whenever duration > 0 and the raw speed distance / ⌈duration/60⌉
exceeds 130, the speed is exactly 75 — as the returned value, and as entry 4
of the feature row — regardless of the unclamped value. -/
theorem speed_clamp_gives_75 (d t : ℚ) (e l : ℤ) (cc : String)
    (model : List ℚ → ℚ) (ht : 0 < t)
    (hs : 130 < d / (⌈t / 60⌉ : ℚ)) (hc : cc ∈ class_hierarchy) :
    speed_kmh d t = 75 ∧
    (featureVector d t e l)[4]? = some 75 ∧
    ∃ fare, predict_fare d t cc model = Except.ok (fare, 75) := by
  have h75 : speed_kmh d t = 75 := speed_kmh_eq_75 d t ht hs
  refine ⟨h75, ?_, ?_⟩
  · rw [featureVector_eq, h75]
    rfl
  · obtain ⟨e', l', -, -, hok⟩ := predict_fare_ok_of_mem d t cc model hc
    rw [h75] at hok
    exact ⟨_, hok⟩

/-- Witness for C2: 300 km in 60 minutes has raw speed 300 > 130 and is
clamped to 75. -/
theorem speed_clamp_gives_75_witness : speed_kmh 300 60 = 75 :=
  (speed_clamp_gives_75 300 60 1 6 "1A" (fun _ => 0) (by norm_num)
    (by norm_num) (by decide)).1

/-- C3: for each of the six travel classes the encoded rank and luxury score
placed at entries 2 and 3 of the feature row match the fixed tables:
1A → (1,6), 2A → (2,5), 3A → (3,4), SL → (4,3), CC → (5,2), 2S → (6,1). -/
theorem class_encoding_tables (d t : ℚ) :
    (class_mapping "1A" = some 1 ∧ luxury_mapping "1A" = some 6 ∧
      (featureVector d t 1 6)[2]? = some 1 ∧
      (featureVector d t 1 6)[3]? = some 6) ∧
    (class_mapping "2A" = some 2 ∧ luxury_mapping "2A" = some 5 ∧
      (featureVector d t 2 5)[2]? = some 2 ∧
      (featureVector d t 2 5)[3]? = some 5) ∧
    (class_mapping "3A" = some 3 ∧ luxury_mapping "3A" = some 4 ∧
      (featureVector d t 3 4)[2]? = some 3 ∧
      (featureVector d t 3 4)[3]? = some 4) ∧
    (class_mapping "SL" = some 4 ∧ luxury_mapping "SL" = some 3 ∧
      (featureVector d t 4 3)[2]? = some 4 ∧
      (featureVector d t 4 3)[3]? = some 3) ∧
    (class_mapping "CC" = some 5 ∧ luxury_mapping "CC" = some 2 ∧
      (featureVector d t 5 2)[2]? = some 5 ∧
      (featureVector d t 5 2)[3]? = some 2) ∧
    (class_mapping "2S" = some 6 ∧ luxury_mapping "2S" = some 1 ∧
      (featureVector d t 6 1)[2]? = some 6 ∧
      (featureVector d t 6 1)[3]? = some 1) := by
  refine ⟨⟨rfl, rfl, ?_, ?_⟩, ⟨rfl, rfl, ?_, ?_⟩, ⟨rfl, rfl, ?_, ?_⟩,
    ⟨rfl, rfl, ?_, ?_⟩, ⟨rfl, rfl, ?_, ?_⟩, rfl, rfl, ?_, ?_⟩ <;>
    norm_num [featureVector_eq]

/-- C4: for duration > 0 the pre-clamp speed is
distance / ⌈duration / 60⌉, and for duration = 0 it is 0. -/
theorem speed_formula (d t : ℚ) :
    (0 < t → speed_kmh_unclamped d t = d / (⌈t / 60⌉ : ℚ)) ∧
    (t = 0 → speed_kmh_unclamped d t = 0) := by
  constructor
  · intro ht
    exact if_pos ht
  · rintro rfl
    simp [speed_kmh_unclamped]

/-- Witness for C4 at (100, 60) and (100, 0). -/
theorem speed_formula_witness :
    speed_kmh_unclamped 100 60 = 100 / (⌈(60 : ℚ) / 60⌉ : ℚ) ∧
    speed_kmh_unclamped 100 0 = 0 :=
  ⟨(speed_formula 100 60).1 (by norm_num), (speed_formula 100 0).2 rfl⟩

/-- C5 counterexample: at distance 100, duration 0, class 1A (a positive
distance and a recognized class), the §4-table features distance_class
(entry 13) and is_short_journey (entry 10) are 100 and 1, not 0 — so not
every feature of the table defaults to 0 when duration = 0. -/
theorem duration_zero_not_all_features_zero :
    (featureVector 100 0 1 6)[13]? = some 100 ∧
    (featureVector 100 0 1 6)[10]? = some 1 ∧
    (100 : ℚ) ≠ 0 ∧ (1 : ℚ) ≠ 0 := by
  refine ⟨?_, ?_, ?_, ?_⟩ <;> norm_num [featureVector]

/-- C5 (amended): whenever duration = 0, every feature that depends on
duration or on speed defaults to 0 in the assembled row — entries 5
(km_per_minute), 6 (speed_premium), 7 (efficiency_score), 8 (is_express),
9 (journey_intensity), 15 (speed_class), 16 (speed_luxury),
17 (distance_duration_ratio), 18 (distance_duration_class),
19 (express_premium), 21 (duration_squared), 22 (speed_squared) and the
speed itself (entry 4) — while the purely distance-based features are
computed from distance as usual (entries 13 and 20 shown). -/
theorem duration_zero_speed_features_zero (d : ℚ) (e l : ℤ) (hd : 0 < d) :
    (featureVector d 0 e l)[5]? = some 0 ∧
    (featureVector d 0 e l)[6]? = some 0 ∧
    (featureVector d 0 e l)[7]? = some 0 ∧
    (featureVector d 0 e l)[8]? = some 0 ∧
    (featureVector d 0 e l)[9]? = some 0 ∧
    (featureVector d 0 e l)[15]? = some 0 ∧
    (featureVector d 0 e l)[16]? = some 0 ∧
    (featureVector d 0 e l)[17]? = some 0 ∧
    (featureVector d 0 e l)[18]? = some 0 ∧
    (featureVector d 0 e l)[19]? = some 0 ∧
    (featureVector d 0 e l)[21]? = some 0 ∧
    (featureVector d 0 e l)[22]? = some 0 ∧
    (featureVector d 0 e l)[4]? = some 0 ∧
    (featureVector d 0 e l)[13]? = some (distance_class d e) ∧
    (featureVector d 0 e l)[20]? = some (distance_squared d) := by
  have hs : speed_kmh d 0 = 0 := speed_kmh_duration_zero d
  refine ⟨?_, ?_, ?_, ?_, ?_, ?_, ?_, ?_, ?_, ?_, ?_, ?_, ?_, ?_, ?_⟩ <;>
    norm_num [featureVector_eq, km_per_minute, speed_premium,
      efficiency_score, is_express, journey_intensity, speed_class,
      speed_luxury, distance_duration_ratio, distance_duration_class,
      express_premium, duration_squared, speed_squared, hs]

/-- Witness for the amended C5 at distance 100, class 1A. -/
theorem duration_zero_speed_features_zero_witness :
    (featureVector 100 0 1 6)[5]? = some 0 :=
  (duration_zero_speed_features_zero 100 1 6 (by norm_num)).1

/-- C6: with duration = 0, every feature that divides by duration —
km_per_minute, efficiency_score, journey_intensity,
distance_duration_ratio — and the speed are 0 in the assembled row, and
is_express is 0. -/
theorem duration_zero_ratio_features_zero (d : ℚ) (e l : ℤ) (hd : 0 < d) :
    km_per_minute d 0 = 0 ∧ efficiency_score d 0 e = 0 ∧
    journey_intensity d 0 = 0 ∧ distance_duration_ratio d 0 = 0 ∧
    speed_kmh d 0 = 0 ∧ is_express d 0 = 0 ∧
    (featureVector d 0 e l)[5]? = some 0 ∧
    (featureVector d 0 e l)[7]? = some 0 ∧
    (featureVector d 0 e l)[9]? = some 0 ∧
    (featureVector d 0 e l)[17]? = some 0 ∧
    (featureVector d 0 e l)[4]? = some 0 ∧
    (featureVector d 0 e l)[8]? = some 0 := by
  have hs : speed_kmh d 0 = 0 := speed_kmh_duration_zero d
  refine ⟨?_, ?_, ?_, ?_, ?_, ?_, ?_, ?_, ?_, ?_, ?_, ?_⟩ <;>
    norm_num [featureVector_eq, km_per_minute, efficiency_score,
      journey_intensity, distance_duration_ratio, is_express, hs]

/-- Witness for C6 at distance 100, class 1A. -/
theorem duration_zero_ratio_features_zero_witness :
    km_per_minute 100 0 = 0 :=
  (duration_zero_ratio_features_zero 100 1 6 (by norm_num)).1

/-- C7: for every positive distance exactly one of the three journey-length
indicators is 1 (the other two are 0); the boundary 200 is short and the
boundary 500 is medium. -/
theorem journey_indicators_partition (d : ℚ) (hd : 0 < d) :
    ((is_short_journey d = 1 ∧ is_medium_journey d = 0 ∧
        is_long_journey d = 0) ∨
     (is_short_journey d = 0 ∧ is_medium_journey d = 1 ∧
        is_long_journey d = 0) ∨
     (is_short_journey d = 0 ∧ is_medium_journey d = 0 ∧
        is_long_journey d = 1)) ∧
    is_short_journey 200 = 1 ∧ is_medium_journey 200 = 0 ∧
    is_long_journey 200 = 0 ∧
    is_medium_journey 500 = 1 ∧ is_short_journey 500 = 0 ∧
    is_long_journey 500 = 0 := by
  constructor
  · rcases le_or_lt d 200 with h1 | h1
    · left
      refine ⟨if_pos h1, if_neg ?_, if_neg ?_⟩
      · rintro ⟨h2, -⟩
        exact absurd h1 (not_le.mpr h2)
      · intro h2
        exact absurd h1 (not_le.mpr (by linarith))
    · rcases le_or_lt d 500 with h2 | h2
      · right; left
        exact ⟨if_neg (not_le.mpr h1), if_pos ⟨h1, h2⟩,
          if_neg (not_lt.mpr h2)⟩
      · right; right
        refine ⟨if_neg (not_le.mpr (by linarith)), if_neg ?_, if_pos h2⟩
        rintro ⟨-, h3⟩
        exact absurd h3 (not_le.mpr h2)
  · norm_num [is_short_journey, is_medium_journey, is_long_journey]

/-- Witness for C7 at distance 300 (its boundary conjunct at 200). -/
theorem journey_indicators_partition_witness : is_short_journey 200 = 1 :=
  (journey_indicators_partition 300 (by norm_num)).2.1

/-- C8: an unrecognized class code fails with the unknown-class error — the
`KeyError` of the dictionary lookup, before any feature row exists — and the
result does not depend on the model, so `model.predict` is never invoked. -/
theorem unknown_class_rejected (d t : ℚ) (cc : String)
    (m₁ m₂ : List ℚ → ℚ) (h : cc ∉ class_hierarchy) :
    predict_fare d t cc m₁ = Except.error FareError.unknownClass ∧
    predict_fare d t cc m₁ = predict_fare d t cc m₂ := by
  have hm : class_mapping cc = none := class_mapping_eq_none cc h
  constructor
  · unfold predict_fare
    rw [hm]
  · unfold predict_fare
    rw [hm]

/-- Witness for C8 at the spec's example code 4A. -/
theorem unknown_class_rejected_witness :
    predict_fare 100 60 "4A" (fun _ => 0) =
      Except.error FareError.unknownClass :=
  (unknown_class_rejected 100 60 "4A" (fun _ => 0) (fun _ => 1)
    (by decide)).1

/-- C9: `predict_fare` is total on its domain — for duration > 0 the speed
divisor ⌈duration/60⌉ is at least 1 (so nonzero, and duration itself is
nonzero for the other divisions), and for every distance, non-negative
duration and recognized class the function returns an ok (fare, speed)
pair. -/
theorem predict_fare_total (d t : ℚ) (cc : String) (model : List ℚ → ℚ)
    (ht : 0 ≤ t) (hc : cc ∈ class_hierarchy) :
    (0 < t → 1 ≤ ⌈t / 60⌉ ∧ ((⌈t / 60⌉ : ℚ) ≠ 0) ∧ t ≠ 0) ∧
    ∃ fare speed, predict_fare d t cc model = Except.ok (fare, speed) := by
  constructor
  · intro htp
    have hc1 : 0 < ⌈t / 60⌉ := Int.ceil_pos.mpr (by positivity)
    exact ⟨hc1, Int.cast_ne_zero.mpr hc1.ne', htp.ne'⟩
  · obtain ⟨e, l, -, -, hok⟩ := predict_fare_ok_of_mem d t cc model hc
    exact ⟨_, _, hok⟩

/-- Witness for C9 at the degenerate duration 0 with class SL. -/
theorem predict_fare_total_witness :
    ∃ fare speed,
      predict_fare 100 0 "SL" (fun _ => 0) = Except.ok (fare, speed) :=
  (predict_fare_total 100 0 "SL" (fun _ => 0) (by norm_num) (by decide)).2

/-- C10: whenever the speed clamp fires (duration > 0 and raw speed above
130), the fallback 75 exceeds the express threshold 60, so the row has
is_express = 1 (entry 8) and express_premium = luxury_score (entry 19):
every clamped journey is classified as express. -/
theorem clamped_journey_is_express (d t : ℚ) (e l : ℤ) (ht : 0 < t)
    (hs : 130 < d / (⌈t / 60⌉ : ℚ)) :
    is_express d t = 1 ∧ express_premium d t l = (l : ℚ) ∧
    (featureVector d t e l)[8]? = some 1 ∧
    (featureVector d t e l)[19]? = some (l : ℚ) := by
  have h75 : speed_kmh d t = 75 := speed_kmh_eq_75 d t ht hs
  have hie : is_express d t = 1 := by
    simp only [is_express, h75]
    norm_num
  have hep : express_premium d t l = (l : ℚ) := by
    rw [express_premium, hie, one_mul]
  refine ⟨hie, hep, ?_, ?_⟩ <;> simp [featureVector_eq, hie, hep]

/-- Witness for C10: 300 km in 60 minutes is clamped and express. -/
theorem clamped_journey_is_express_witness : is_express 300 60 = 1 :=
  (clamped_journey_is_express 300 60 1 6 (by norm_num) (by norm_num)).1

end TrainFare
